import Mathlib

/-!
# Verification of the DLWP-CS tutorial notebooks

This file embeds the code defined in the two tutorial notebooks of the
repository (`Tutorials/1 - Downloading and processing ERA5.ipynb` and
`Tutorials/3 - Training a DLWP-CS model.ipynb`) and proves properties of
that code.

The notebooks define two Python functions of their own, `unet2` and
`complete_model`, both of which build Keras symbolic-tensor graphs by
applying layer objects to symbolic tensors.  We embed symbolic tensors as
the inductive type `KTensor`: applying a layer to one or two tensors
builds a node recording the layer's (notebook-level) name.  Every layer
appearing in the notebook is applied to exactly one tensor, except
`concatenate`/`Concatenate`, which joins two.

The remaining notebook content is straight-line orchestration code
(parameter assignments, library calls, a few direct effects).  That part
is embedded structurally as lists of statements (`Stmt`), transcribed
cell by cell from the notebooks, with a small execution model used to
reason about error propagation.
-/

/-- A Keras symbolic tensor, as built by the notebook code: either a raw
`Input(...)` placeholder or the application of a (named) layer to one or
two upstream tensors. -/
inductive KTensor where
  | input (name : String)
  | op1 (layer : String) (x : KTensor)
  | op2 (layer : String) (x y : KTensor)
deriving DecidableEq, Repr

/-- The `unet2` function of cell 26 of the training notebook, applied to a
symbolic tensor `x`.  Each line mirrors one line of the Python source; the
layer objects (`cube_padding_1`, `relu`, `conv_2d_1`, ..., `pooling_2`,
`up_sampling_2`, `conv_2d_8`) are the layer instances constructed in cell
24, and `concatenate` is the Keras function joining two tensors along the
last axis. -/
def unet2 (x : KTensor) : KTensor :=
  let x0 : KTensor := .op1 "cube_padding_1" x
  let x0 : KTensor := .op1 "relu" (.op1 "conv_2d_1" x0)
  let x0 : KTensor := .op1 "cube_padding_1" x0
  let x0 : KTensor := .op1 "relu" (.op1 "conv_2d_1_2" x0)
  let x1 : KTensor := .op1 "pooling_2" x0
  let x1 : KTensor := .op1 "cube_padding_1" x1
  let x1 : KTensor := .op1 "relu" (.op1 "conv_2d_2" x1)
  let x1 : KTensor := .op1 "cube_padding_1" x1
  let x1 : KTensor := .op1 "relu" (.op1 "conv_2d_2_2" x1)
  let x2 : KTensor := .op1 "pooling_2" x1
  let x2 : KTensor := .op1 "cube_padding_1" x2
  let x2 : KTensor := .op1 "relu" (.op1 "conv_2d_5_2" x2)
  let x2 : KTensor := .op1 "cube_padding_1" x2
  let x2 : KTensor := .op1 "relu" (.op1 "conv_2d_5" x2)
  let x2 : KTensor := .op1 "up_sampling_2" x2
  let y : KTensor := .op2 "concatenate" x2 x1
  let y : KTensor := .op1 "cube_padding_1" y
  let y : KTensor := .op1 "relu" (.op1 "conv_2d_6_2" y)
  let y : KTensor := .op1 "cube_padding_1" y
  let y : KTensor := .op1 "relu" (.op1 "conv_2d_6" y)
  let y : KTensor := .op1 "up_sampling_2" y
  let y : KTensor := .op2 "concatenate" y x0
  let y : KTensor := .op1 "cube_padding_1" y
  let y : KTensor := .op1 "relu" (.op1 "conv_2d_7" y)
  let y : KTensor := .op1 "cube_padding_1" y
  let y : KTensor := .op1 "relu" (.op1 "conv_2d_7_2" y)
  .op1 "conv_2d_8" y

/-- Number of layer applications (graph nodes above the inputs) in a
symbolic tensor. -/
def layerOps : KTensor → Nat
  | .input _ => 0
  | .op1 _ x => 1 + layerOps x
  | .op2 _ x y => 1 + layerOps x + layerOps y

/-- Number of occurrences of the input placeholder named `v` in a symbolic
tensor (an input that is reused along several paths — a skip connection —
occurs several times in the tree). -/
def countInput (v : String) : KTensor → Nat
  | .input n => if n = v then 1 else 0
  | .op1 _ x => countInput v x
  | .op2 _ x y => countInput v x + countInput v y

/-- The argument `x_in` of `complete_model` in cell 28: Python passes
either a single symbolic tensor or a list/tuple of them
(`isinstance(x_in, (list, tuple))`). -/
inductive XIn where
  | single (t : KTensor)
  | seq (ts : List KTensor)
deriving DecidableEq, Repr

/-- `isinstance(x_in, (list, tuple))` in `complete_model`. -/
def XIn.is_seq : XIn → Bool
  | .single _ => false
  | .seq _ => true

/-- The underlying list when `x_in` is a list/tuple (indexing `x_in[step]`
only happens in the Python code when `is_seq` holds). -/
def XIn.seqList : XIn → List KTensor
  | .single _ => []
  | .seq ts => ts

/-- `x_in[0] if is_seq else x_in` in `complete_model`; `none` models the
`IndexError` Python raises on an empty list. -/
def xin_first : XIn → Option KTensor
  | .single t => some t
  | .seq ts => ts[0]?

/-- The solar-input concatenation block inside the loop of
`complete_model` (cell 28):
`xo = Reshape(cs[:-1] + (io_time_steps, -1))(xo)`,
`xo = Concatenate(axis=-1)([xo, Permute((2, 3, 4, 1, 5))(x_in[step])])`,
`xo = Reshape(cs)(xo)`.  The two `Reshape` layers have different target
shapes and are distinguished by name. -/
def solar_concat (xo x_step : KTensor) : KTensor :=
  .op1 "Reshape_cs"
    (.op2 "Concatenate" (.op1 "Reshape_split_time" xo) (.op1 "Permute_23415" x_step))

/-- The body of one loop iteration of `complete_model` before the model
function is applied: when `x_in` is a sequence and `input_solar` holds,
the insolation input `x_in[step]` is concatenated onto the previous
output; otherwise the previous output is used unchanged.  `none` models
the `IndexError` raised when `x_in` has no element at `step`. -/
def stepInput (seq_solar : Bool) (x_list : List KTensor) (xo : KTensor) (step : Nat) :
    Option KTensor :=
  if seq_solar then (x_list[step]?).map (fun s => solar_concat xo s) else some xo

/-- The `for step in range(1, integration_steps)` loop of `complete_model`:
`steps` is the list of remaining loop indices and `outputs` the list built
so far.  Each iteration reads `outputs[step - 1]`, optionally concatenates
the insolation input, applies the model function and appends the result. -/
def complete_model_loop (model_function : KTensor → KTensor) (seq_solar : Bool)
    (x_list : List KTensor) : List Nat → List KTensor → Option (List KTensor)
  | [], outputs => some outputs
  | step :: rest, outputs =>
    match outputs[step - 1]? with
    | none => none
    | some prev =>
      match stepInput seq_solar x_list prev step with
      | none => none
      | some xo =>
        complete_model_loop model_function seq_solar x_list rest
          (outputs ++ [model_function xo])

/-- The `complete_model` function of cell 28 of the training notebook.
The notebook resolves `model_function = globals()[cnn_model_name]`
(with `cnn_model_name = 'unet2'`, so `model_function = unet2`); here the
resolved function is a parameter, as are the notebook-level values
`integration_steps` and `input_solar`.  The result is `none` exactly when
the Python code would raise an `IndexError` indexing `x_in`. -/
def complete_model (integration_steps : Nat) (input_solar : Bool)
    (model_function : KTensor → KTensor) (x_in : XIn) : Option (List KTensor) :=
  let is_seq := x_in.is_seq
  match xin_first x_in with
  | none => none
  | some xi =>
    complete_model_loop model_function (is_seq && input_solar) x_in.seqList
      (List.range' 1 (integration_steps - 1)) [model_function xi]

theorem complete_model_loop_spec (mf : KTensor → KTensor) (ss : Bool) (xl : List KTensor) :
    ∀ (m s : Nat) (outputs : List KTensor),
      outputs.length = s → 1 ≤ s →
      (ss = true → s + m ≤ xl.length) →
      ∃ outs, complete_model_loop mf ss xl (List.range' s m) outputs = some outs ∧
        outs.length = s + m ∧
        (∀ i, i < s → outs[i]? = outputs[i]?) ∧
        (∀ j, s ≤ j → j < s + m →
          ∃ prev xo, outs[j - 1]? = some prev ∧ stepInput ss xl prev j = some xo ∧
            outs[j]? = some (mf xo)) := by
  intro m
  induction m with
  | zero =>
    intro s outputs hlen hs hx
    refine ⟨outputs, rfl, by omega, fun i _ => rfl, fun j hj1 hj2 => absurd hj2 (by omega)⟩
  | succ m ih =>
    intro s outputs hlen hs hx
    have hrange : List.range' s (m + 1) = s :: List.range' (s + 1) m := List.range'_succ s m 1
    have hsm1 : s - 1 < outputs.length := by omega
    obtain ⟨prev, hprev⟩ : ∃ prev, outputs[s - 1]? = some prev :=
      ⟨_, List.getElem?_eq_getElem hsm1⟩
    have hstep : ∃ xo, stepInput ss xl prev s = some xo := by
      cases ss with
      | false => exact ⟨prev, by simp [stepInput]⟩
      | true =>
        have hxlen : s < xl.length := by have := hx rfl; omega
        obtain ⟨v, hv⟩ : ∃ v, xl[s]? = some v := ⟨_, List.getElem?_eq_getElem hxlen⟩
        rw [stepInput, if_pos rfl, hv]
        exact ⟨_, rfl⟩
    obtain ⟨xo, hxo⟩ := hstep
    have hunfold : complete_model_loop mf ss xl (List.range' s (m + 1)) outputs
        = complete_model_loop mf ss xl (List.range' (s + 1) m) (outputs ++ [mf xo]) := by
      rw [hrange]
      simp [complete_model_loop, hprev, hxo]
    obtain ⟨outs, hrun, hlen2, hpre2, hstep2⟩ :=
      ih (s + 1) (outputs ++ [mf xo]) (by simp [hlen]) (by omega)
        (fun h => by have := hx h; omega)
    refine ⟨outs, ?_, by omega, ?_, ?_⟩
    · rw [hunfold]; exact hrun
    · intro i hi
      rw [hpre2 i (by omega), List.getElem?_append, if_pos (by omega)]
    · intro j hj1 hj2
      by_cases hjs : j = s
      · subst hjs
        refine ⟨prev, xo, ?_, hxo, ?_⟩
        · rw [hpre2 (j - 1) (by omega), List.getElem?_append, if_pos (by omega), hprev]
        · rw [hpre2 j (by omega), show j = outputs.length from hlen.symm]
          exact List.getElem?_concat_length _ _
      · exact hstep2 j (by omega) (by omega)

/-- Full characterization of `complete_model`: under the indexing
preconditions (a sequence input must be nonempty, and long enough when the
solar inputs are consumed), it returns `some` list of exactly
`integration_steps` outputs (for `integration_steps ≥ 1`), whose head is
the model function applied to the first input and whose later elements
each apply the model function to the previous element after the optional
solar concatenation. -/
theorem complete_model_run (n : Nat) (hn : 1 ≤ n) (sol : Bool)
    (mf : KTensor → KTensor) (x : XIn)
    (hwf : x.is_seq = true → 1 ≤ x.seqList.length ∧ (sol = true → n ≤ x.seqList.length)) :
    ∃ outs x0, xin_first x = some x0 ∧
      complete_model n sol mf x = some outs ∧
      outs.length = n ∧
      outs[0]? = some (mf x0) ∧
      (∀ step, 1 ≤ step → step < n →
        ∃ prev xo, outs[step - 1]? = some prev ∧
          stepInput (x.is_seq && sol) x.seqList prev step = some xo ∧
          outs[step]? = some (mf xo)) := by
  have hx0 : ∃ x0, xin_first x = some x0 := by
    cases x with
    | single t => exact ⟨t, rfl⟩
    | seq ts =>
      have h1 : 1 ≤ ts.length := (hwf rfl).1
      exact ⟨_, List.getElem?_eq_getElem (by omega)⟩
  obtain ⟨x0, hx0⟩ := hx0
  have hxlist : (x.is_seq && sol) = true → 1 + (n - 1) ≤ x.seqList.length := by
    intro h
    have hseq : x.is_seq = true := by
      cases x with
      | single t => simp [XIn.is_seq] at h
      | seq ts => rfl
    have hsol : sol = true := by
      cases sol with
      | false => rw [hseq] at h; simp at h
      | true => rfl
    have := (hwf hseq).2 hsol
    omega
  obtain ⟨outs, hrun, hlen, hpre, hsteps⟩ :=
    complete_model_loop_spec mf (x.is_seq && sol) x.seqList (n - 1) 1 [mf x0]
      rfl (by omega) hxlist
  refine ⟨outs, x0, hx0, ?_, by omega, ?_, ?_⟩
  · rw [complete_model, hx0]
    exact hrun
  · rw [hpre 0 (by omega)]
    rfl
  · intro step h1 h2
    exact hsteps step h1 (by omega)

/-- The rendering of the spec's claim that no function defined inside the
notebooks performs an algorithmic computation: the notebook-defined
function `unet2` would then act as a mere pass-through, returning its
input tensor unchanged. -/
def notebook_defined_functions_trivial : Prop := ∀ x : KTensor, unet2 x = x

/-- C1 counterexample: the claim that the repository's own code implements
no algorithmic component is false — the training notebook's own function
`unet2` maps the input tensor to a distinct composite graph rather than
passing it through. -/
theorem claim_C1_counterexample : ¬ notebook_defined_functions_trivial :=
  fun h => absurd (h (KTensor.input "x")) (by decide)

/-- C1 (amended): the training notebook itself defines functions with
algorithmic behavior — `unet2` applies a fixed U-Net sequence of 56
padding, convolution, pooling, up-sampling and concatenation operations
(with the input referenced along three paths), so it never returns its
input unchanged. -/
theorem claim_C1_notebook_functions_compute :
    ∀ x : KTensor, layerOps (unet2 x) = 3 * layerOps x + 56 ∧ unet2 x ≠ x := by
  intro x
  have hops : layerOps (unet2 x) = 3 * layerOps x + 56 := by
    simp [unet2, layerOps]
    ring
  refine ⟨hops, fun h => ?_⟩
  have hc := congrArg layerOps h
  rw [hops] at hc
  omega

/-- C1 witness: the amended claim evaluated at the concrete input tensor
named `x`. -/
theorem claim_C1_witness :
    layerOps (unet2 (KTensor.input "x")) = 3 * layerOps (KTensor.input "x") + 56 ∧
    unet2 (KTensor.input "x") ≠ KTensor.input "x" :=
  claim_C1_notebook_functions_compute (KTensor.input "x")

/-- C2: for every `integration_steps ≥ 1` and every input `x_in` providing
the indexed elements the code accesses, `complete_model` returns a list of
exactly `integration_steps` outputs; its first element applies the model
function (resolved from `cnn_model_name`) to the first input, and each
element at position `step ≥ 1` applies the model function to the previous
element, after concatenating the insolation input for that step when
`x_in` is a list and `input_solar` holds. -/
theorem claim_C2_complete_model_outputs (n : Nat) (hn : 1 ≤ n) (sol : Bool)
    (mf : KTensor → KTensor) (x : XIn)
    (hwf : x.is_seq = true → 1 ≤ x.seqList.length ∧ (sol = true → n ≤ x.seqList.length)) :
    ∃ outs x0, xin_first x = some x0 ∧
      complete_model n sol mf x = some outs ∧
      outs.length = n ∧
      outs[0]? = some (mf x0) ∧
      (∀ step, 1 ≤ step → step < n →
        ∃ prev xo, outs[step - 1]? = some prev ∧
          stepInput (x.is_seq && sol) x.seqList prev step = some xo ∧
          outs[step]? = some (mf xo)) :=
  complete_model_run n hn sol mf x hwf

/-- C2 witness: the situation of the training notebook itself —
`integration_steps = 2`, `input_solar` true, `model_function = unet2`, and
`x_in` the list of the main input and one solar input. -/
theorem claim_C2_witness :
    ∃ outs x0,
      xin_first (XIn.seq [KTensor.input "main_input", KTensor.input "solar_1"]) = some x0 ∧
      complete_model 2 true unet2
        (XIn.seq [KTensor.input "main_input", KTensor.input "solar_1"]) = some outs ∧
      outs.length = 2 ∧
      outs[0]? = some (unet2 x0) ∧
      (∀ step, 1 ≤ step → step < 2 →
        ∃ prev xo, outs[step - 1]? = some prev ∧
          stepInput ((XIn.seq [KTensor.input "main_input", KTensor.input "solar_1"]).is_seq && true)
            (XIn.seq [KTensor.input "main_input", KTensor.input "solar_1"]).seqList prev step
            = some xo ∧
          outs[step]? = some (unet2 xo)) :=
  claim_C2_complete_model_outputs 2 (by decide) true unet2
    (XIn.seq [KTensor.input "main_input", KTensor.input "solar_1"])
    (fun _ => ⟨by decide, fun _ => by decide⟩)

/-- The rendering of the spec's claim that the notebooks define no control
flow of their own: the loop in `complete_model` would then have no effect,
so the result could not depend on `integration_steps`. -/
def complete_model_no_loop : Prop :=
  ∀ (n m : Nat) (mf : KTensor → KTensor) (x : XIn),
    complete_model n false mf x = complete_model m false mf x

/-- C3 counterexample: the claim that the repository's code introduces no
loops, branches or composed dataflow is false — the loop in
`complete_model` makes its output depend on `integration_steps`
(shown here at a concrete model function and input). -/
theorem claim_C3_counterexample : ¬ complete_model_no_loop := fun h =>
  absurd
    (h 2 1 (fun t => KTensor.op1 "model" t) (XIn.single (KTensor.input "x")))
    (by decide)

/-- C3 (amended): the training notebook does introduce control flow and
dataflow of its own — the loop of `complete_model` feeds each prediction
back into the model function (for two integration steps the outputs are
`[mf x, mf (mf x)]`), and `unet2` builds a dataflow graph with skip
connections, referencing its input along 3 distinct paths. -/
theorem claim_C3_loop_and_dataflow :
    (∀ (mf : KTensor → KTensor) (t : KTensor),
      complete_model 2 false mf (XIn.single t) = some [mf t, mf (mf t)]) ∧
    countInput "x" (unet2 (KTensor.input "x")) = 3 :=
  ⟨fun _ _ => rfl, rfl⟩

/-- The rendering of the spec's claim that the repository's own content
introduces no invariants: it would then not be the case that the length of
the output list of the notebook-defined `complete_model` always equals
`integration_steps`. -/
def complete_model_no_length_invariant : Prop :=
  ¬ (∀ (n : Nat) (mf : KTensor → KTensor) (t : KTensor), 1 ≤ n →
      ∀ outs, complete_model n false mf (XIn.single t) = some outs → outs.length = n)

/-- C4 counterexample: the claim that the repository introduces no
invariant is false — the notebook-defined `complete_model` does maintain
the invariant that its output list length equals `integration_steps`. -/
theorem claim_C4_counterexample : ¬ complete_model_no_length_invariant := by
  intro h
  apply h
  intro n mf t hn outs houts
  obtain ⟨outs2, x0, _, hrun, hlen, _, _⟩ :=
    complete_model_run n hn false mf (XIn.single t)
      (fun hh => absurd hh (by simp [XIn.is_seq]))
  have heq : outs = outs2 := Option.some.inj (houts.symm.trans hrun)
  rw [heq]
  exact hlen

/-- C4 (amended): the repository's own content does introduce an
invariant — for every `integration_steps ≥ 1` and every input providing
the elements the code indexes, the output list of `complete_model` has
length exactly `integration_steps`. -/
theorem claim_C4_length_invariant (n : Nat) (hn : 1 ≤ n) (sol : Bool)
    (mf : KTensor → KTensor) (x : XIn)
    (hwf : x.is_seq = true → 1 ≤ x.seqList.length ∧ (sol = true → n ≤ x.seqList.length)) :
    ∃ outs, complete_model n sol mf x = some outs ∧ outs.length = n := by
  obtain ⟨outs, _, _, hrun, hlen, _, _⟩ := complete_model_run n hn sol mf x hwf
  exact ⟨outs, hrun, hlen⟩

/-- C4 witness: the length invariant at `integration_steps = 3` with the
model function `unet2` and a single concrete input tensor. -/
theorem claim_C4_witness :
    ∃ outs, complete_model 3 false unet2 (XIn.single (KTensor.input "x")) = some outs ∧
      outs.length = 3 :=
  claim_C4_length_invariant 3 (by decide) false unet2 (XIn.single (KTensor.input "x"))
    (fun hh => absurd hh (by decide))

/-- Cell 22 of the training notebook:
`input_names = ['main_input'] + ['solar_%d' % i for i in range(1, integration_steps)]`. -/
def input_names (integration_steps : Nat) : List String :=
  ["main_input"] ++ (List.range' 1 (integration_steps - 1)).map (fun i => "solar_" ++ toString i)

/-- C9: for every `integration_steps ≥ 1`, `input_names` has length exactly
`integration_steps`, starts with `'main_input'` and continues with
`'solar_1', ..., 'solar_<integration_steps - 1>'`; in particular for
`integration_steps = 1` it is the single-element list `['main_input']`. -/
theorem claim_C9_input_names (n : Nat) (hn : 1 ≤ n) :
    (input_names n).length = n ∧
    (input_names n)[0]? = some "main_input" ∧
    (∀ i, 1 ≤ i → i < n → (input_names n)[i]? = some ("solar_" ++ toString i)) ∧
    input_names 1 = ["main_input"] := by
  refine ⟨?_, by simp [input_names], ?_, by decide⟩
  · simp [input_names]
    omega
  · intro i h1 h2
    obtain ⟨j, rfl⟩ : ∃ j, i = j + 1 := ⟨i - 1, by omega⟩
    show (("main_input" :: (List.range' 1 (n - 1)).map (fun i => "solar_" ++ toString i))
        : List String)[j + 1]? = _
    rw [List.getElem?_cons_succ, List.getElem?_map, List.getElem?_range' 1 1 (by omega)]
    have harith : 1 + 1 * j = j + 1 := by ring
    rw [harith]
    rfl

/-- C9 witness: `input_names` at the concrete value `integration_steps = 3`
(and the special case `integration_steps = 1`). -/
theorem claim_C9_witness :
    (input_names 3).length = 3 ∧
    (input_names 3)[0]? = some "main_input" ∧
    (input_names 3)[2]? = some ("solar_" ++ toString 2) ∧
    input_names 1 = ["main_input"] :=
  ⟨(claim_C9_input_names 3 (by decide)).1,
   (claim_C9_input_names 3 (by decide)).2.1,
   (claim_C9_input_names 3 (by decide)).2.2.1 2 (by decide) (by decide),
   (claim_C9_input_names 3 (by decide)).2.2.2⟩

/-- The `main_input = Input(shape=cs, name='main_input')` tensor of
cell 24 of the training notebook. -/
def main_input : KTensor := .input "main_input"

/-- The solar input tensors of cell 24:
`[Input(shape=..., name='solar_%d' % d) for d in range(1, integration_steps)]`
(constructed only when `input_solar` holds). -/
def solar_inputs (integration_steps : Nat) : List KTensor :=
  (List.range' 1 (integration_steps - 1)).map (fun d => KTensor.input ("solar_" ++ toString d))

/-- Cell 24: `input_solar = (integration_steps > 1 and add_solar)`. -/
def input_solar (integration_steps : Nat) (add_solar : Bool) : Bool :=
  decide (1 < integration_steps) && add_solar

/-- The `inputs` value of cell 30 of the training notebook, passed to
`Model(inputs=inputs, outputs=complete_model(inputs))`:
`if not input_solar: inputs = main_input` else
`inputs = [main_input]` followed by (the always-taken inner branch)
`inputs = inputs + solar_inputs`. -/
def model_inputs (integration_steps : Nat) (add_solar : Bool) : XIn :=
  if input_solar integration_steps add_solar then
    XIn.seq ([main_input] ++ solar_inputs integration_steps)
  else
    XIn.single main_input

/-- Number of input tensors handed to the Keras `Model` constructor. -/
def num_model_inputs : XIn → Nat
  | .single _ => 1
  | .seq ts => ts.length

/-- C10: the Keras `Model` is constructed with a single input tensor
exactly when `input_solar` is false, and with a list of exactly
`integration_steps` input tensors (the main input plus
`integration_steps - 1` solar inputs) when `input_solar` is true; when
`add_solar` is false and `integration_steps > 1`, the length of
`input_names` strictly exceeds the number of model inputs. -/
theorem claim_C10_model_inputs (n : Nat) (a : Bool) :
    (input_solar n a = false → model_inputs n a = XIn.single main_input) ∧
    (input_solar n a = true →
      model_inputs n a = XIn.seq (main_input :: solar_inputs n) ∧
      num_model_inputs (model_inputs n a) = n) ∧
    (a = false → 1 < n →
      num_model_inputs (model_inputs n a) < (input_names n).length) := by
  refine ⟨?_, ?_, ?_⟩
  · intro h
    simp [model_inputs, h]
  · intro h
    have hn : 1 < n := by
      have hh := h
      simp [input_solar] at hh
      exact hh.1
    constructor
    · simp [model_inputs, h]
    · simp [model_inputs, h, num_model_inputs, solar_inputs]
      omega
  · intro ha hn
    have h : input_solar n a = false := by simp [input_solar, ha]
    have hlen : (input_names n).length = n := by
      simp [input_names]
      omega
    simp [model_inputs, h, num_model_inputs, hlen]
    omega

/-- C10 witness: at `integration_steps = 3` the model receives three input
tensors when `add_solar` is true, and a single input tensor — fewer than
the three entries of `input_names` — when `add_solar` is false. -/
theorem claim_C10_witness :
    model_inputs 3 true = XIn.seq (main_input :: solar_inputs 3) ∧
    num_model_inputs (model_inputs 3 true) = 3 ∧
    num_model_inputs (model_inputs 3 false) < (input_names 3).length :=
  ⟨((claim_C10_model_inputs 3 true).2.1 (by decide)).1,
   ((claim_C10_model_inputs 3 true).2.1 (by decide)).2,
   (claim_C10_model_inputs 3 false).2.2 rfl (by decide)⟩

/-- An effect performed directly by a notebook statement (as opposed to
effects happening inside an external library call):
changing the working directory (`os.chdir`), creating a directory
(`os.makedirs`), writing a NetCDF file at an explicit path
(`.to_netcdf(...)`), or printing to the interactive notebook display
(`print(...)`). -/
inductive Eff where
  | chdir (path : String)
  | makedirs (path : String)
  | writeNetcdf (path : String)
  | printOut
deriving DecidableEq, Repr

/-- A top-level statement of a notebook code cell, in the forms the two
notebooks use — plus the forms they never use (declaring a class, handling
an exception, spawning a thread or process), kept in the type so that
their absence is a statement about the code rather than about the model.
`libCall` is a call into an external package; `setParam` binds a
notebook-level parameter to a pure expression; `defFun`/`callDefined` are
the definition and invocation of a notebook-defined Python function;
`tryExcept` runs a statement and, if it raises, runs a handler
statement. -/
inductive Stmt where
  | importMod (module : String)
  | setParam (name : String)
  | libCall (package fn : String)
  | direct (e : Eff)
  | defFun (name : String)
  | callDefined (name : String)
  | classDef (name : String)
  | tryExcept (body handler : Stmt)
  | spawnThread
  | spawnProcess
deriving DecidableEq, Repr

/-- `data_directory` of the downloading notebook. -/
def data_directory : String := "/home/disk/wave2/jweyn/Data/ERA5"

/-- `processed_file = '%s/tutorial_z500_t2m.nc' % data_directory` of the
downloading notebook. -/
def processed_file : String := data_directory ++ "/tutorial_z500_t2m.nc"

/-- The code cells of `Tutorials/1 - Downloading and processing ERA5.ipynb`,
statement by statement in source order.  The compound statement
`pp.data.drop('varlev').to_netcdf(processed_file + '.nocoord')` is the
notebook directly writing a file at a path it computes, and is modelled as
a direct effect. -/
def notebook1_stmts : List Stmt := [
  Stmt.libCall "conda" "install",                    -- %conda install -c conda-forge cdsapi
  Stmt.setParam "variables",
  Stmt.setParam "levels",
  Stmt.setParam "years",
  Stmt.importMod "os",
  Stmt.direct (Eff.chdir "os.pardir"),                  -- os.chdir(os.pardir)
  Stmt.importMod "DLWP.data",
  Stmt.setParam "data_directory",
  Stmt.direct (Eff.makedirs data_directory),            -- os.makedirs(data_directory, exist_ok=True)
  Stmt.libCall "DLWP.data" "ERA5Reanalysis",
  Stmt.libCall "DLWP.data" "set_variables",
  Stmt.libCall "DLWP.data" "set_levels",
  Stmt.libCall "DLWP.data" "retrieve",
  Stmt.libCall "DLWP.data" "open",
  Stmt.direct Eff.printOut,                             -- print(era.Dataset)
  Stmt.importMod "pandas",
  Stmt.importMod "DLWP.data.era5",
  Stmt.libCall "pandas" "date_range",                -- dates = list(pd.date_range(...))
  Stmt.libCall "DLWP.data.era5" "get_short_name",
  Stmt.setParam "levels",
  Stmt.setParam "processed_file",
  Stmt.importMod "DLWP.model",
  Stmt.libCall "DLWP.model" "Preprocessor",
  Stmt.libCall "DLWP.model" "data_to_series",
  Stmt.direct Eff.printOut,                             -- print(pp.data)
  Stmt.direct (Eff.writeNetcdf (processed_file ++ ".nocoord")),
  Stmt.libCall "DLWP.data" "close",                  -- era.close()
  Stmt.libCall "DLWP.model" "close"                  -- pp.close()
]

/-- The code cells of `Tutorials/3 - Training a DLWP-CS model.ipynb`,
statement by statement in source order.  Statements guarded by the
notebook's top-level conditionals (the solar `Input`s, the inner
`inputs = inputs + solar_inputs` branch, and the mixed-precision optimizer
rewrite) are included where they appear in the source. -/
def notebook3_stmts : List Stmt := [
  Stmt.importMod "os",
  Stmt.direct (Eff.chdir "os.pardir"),                  -- os.chdir(os.pardir)
  Stmt.setParam "root_directory",
  Stmt.setParam "predictor_file",
  Stmt.setParam "model_file",
  Stmt.setParam "log_directory",
  Stmt.setParam "cnn_model_name",
  Stmt.setParam "base_filter_number",
  Stmt.setParam "min_epochs",
  Stmt.setParam "max_epochs",
  Stmt.setParam "patience",
  Stmt.setParam "batch_size",
  Stmt.setParam "shuffle",
  Stmt.setParam "io_selection",
  Stmt.setParam "add_solar",
  Stmt.setParam "io_time_steps",
  Stmt.setParam "integration_steps",
  Stmt.setParam "data_interval",
  Stmt.setParam "loss_by_step",
  Stmt.importMod "pandas",
  Stmt.libCall "pandas" "date_range",                -- train_set
  Stmt.libCall "pandas" "date_range",                -- validation_set
  Stmt.setParam "use_mp_optimizer",
  Stmt.importMod "DLWP.model",
  Stmt.libCall "DLWP.model" "DLWPFunctional",
  Stmt.importMod "xarray",
  Stmt.libCall "xarray" "open_dataset",
  Stmt.libCall "xarray" "sel",                       -- train_data
  Stmt.libCall "xarray" "sel",                       -- validation_data
  Stmt.importMod "DLWP.model.preprocessing",
  Stmt.importMod "DLWP.model",
  Stmt.direct Eff.printOut,                             -- print('Loading data to memory...')
  Stmt.libCall "DLWP.model.preprocessing" "prepare_data_array",
  Stmt.libCall "DLWP.model" "ArrayDataGenerator",
  Stmt.direct Eff.printOut,                             -- print('Loading validation data to memory...')
  Stmt.libCall "DLWP.model.preprocessing" "prepare_data_array",
  Stmt.libCall "DLWP.model" "ArrayDataGenerator",
  Stmt.importMod "DLWP.model",
  Stmt.setParam "input_names",
  Stmt.libCall "DLWP.model" "tf_data_generator",     -- tf_train_data
  Stmt.libCall "DLWP.model" "tf_data_generator",     -- tf_val_data
  Stmt.importMod "tensorflow.keras.layers",
  Stmt.importMod "DLWP.custom",
  Stmt.setParam "cs",
  Stmt.setParam "cso",
  Stmt.setParam "input_solar",
  Stmt.libCall "tensorflow.keras.layers" "Input",    -- main_input
  Stmt.libCall "tensorflow.keras.layers" "Input",    -- solar_inputs (if input_solar)
  Stmt.libCall "DLWP.custom" "CubeSpherePadding2D",  -- cube_padding_1
  Stmt.libCall "tensorflow.keras.layers" "AveragePooling3D",  -- pooling_2
  Stmt.libCall "tensorflow.keras.layers" "UpSampling3D",      -- up_sampling_2
  Stmt.libCall "tensorflow.keras.layers" "ReLU",     -- relu
  Stmt.setParam "conv_kwargs",
  Stmt.setParam "skip_connections",
  Stmt.libCall "DLWP.custom" "CubeSphereConv2D",     -- conv_2d_1
  Stmt.libCall "DLWP.custom" "CubeSphereConv2D",     -- conv_2d_1_2
  Stmt.libCall "DLWP.custom" "CubeSphereConv2D",     -- conv_2d_1_3
  Stmt.libCall "DLWP.custom" "CubeSphereConv2D",     -- conv_2d_2
  Stmt.libCall "DLWP.custom" "CubeSphereConv2D",     -- conv_2d_2_2
  Stmt.libCall "DLWP.custom" "CubeSphereConv2D",     -- conv_2d_2_3
  Stmt.libCall "DLWP.custom" "CubeSphereConv2D",     -- conv_2d_3
  Stmt.libCall "DLWP.custom" "CubeSphereConv2D",     -- conv_2d_3_2
  Stmt.libCall "DLWP.custom" "CubeSphereConv2D",     -- conv_2d_4
  Stmt.libCall "DLWP.custom" "CubeSphereConv2D",     -- conv_2d_4_2
  Stmt.libCall "DLWP.custom" "CubeSphereConv2D",     -- conv_2d_5
  Stmt.libCall "DLWP.custom" "CubeSphereConv2D",     -- conv_2d_5_2
  Stmt.libCall "DLWP.custom" "CubeSphereConv2D",     -- conv_2d_5_3
  Stmt.libCall "DLWP.custom" "CubeSphereConv2D",     -- conv_2d_6
  Stmt.libCall "DLWP.custom" "CubeSphereConv2D",     -- conv_2d_6_2
  Stmt.libCall "DLWP.custom" "CubeSphereConv2D",     -- conv_2d_6_3
  Stmt.libCall "DLWP.custom" "CubeSphereConv2D",     -- conv_2d_7
  Stmt.libCall "DLWP.custom" "CubeSphereConv2D",     -- conv_2d_7_2
  Stmt.libCall "DLWP.custom" "CubeSphereConv2D",     -- conv_2d_7_3
  Stmt.libCall "DLWP.custom" "CubeSphereConv2D",     -- conv_2d_8
  Stmt.defFun "unet2",
  Stmt.importMod "tensorflow.keras.layers",
  Stmt.defFun "complete_model",
  Stmt.importMod "tensorflow.keras.models",
  Stmt.setParam "inputs",
  Stmt.callDefined "complete_model",                 -- outputs=complete_model(inputs)
  Stmt.libCall "tensorflow.keras.models" "Model",
  Stmt.importMod "tensorflow",
  Stmt.importMod "tensorflow.keras.optimizers",
  Stmt.setParam "loss_function",
  Stmt.libCall "tensorflow.keras.optimizers" "Adam",
  Stmt.libCall "tensorflow" "enable_mixed_precision_graph_rewrite",  -- if use_mp_optimizer
  Stmt.libCall "DLWP.model" "build_model",
  Stmt.direct Eff.printOut,                             -- print(dlwp.base_model.summary())
  Stmt.importMod "tensorflow.keras.callbacks",
  Stmt.importMod "DLWP.custom",
  Stmt.libCall "tensorflow.keras.callbacks" "History",
  Stmt.libCall "DLWP.custom" "EarlyStoppingMin",
  Stmt.libCall "tensorflow.keras.callbacks" "TensorBoard",
  Stmt.importMod "time",
  Stmt.libCall "time" "time",                        -- start_time
  Stmt.libCall "DLWP.custom" "GeneratorEpochEnd",
  Stmt.libCall "DLWP.model" "fit_generator",
  Stmt.libCall "time" "time",                        -- end_time
  Stmt.importMod "DLWP.util",
  Stmt.libCall "DLWP.util" "save_model",
  Stmt.direct Eff.printOut,                             -- print('Wrote model %s' % model_file)
  Stmt.direct Eff.printOut,                             -- print("Train time -- ...")
  Stmt.libCall "DLWP.model" "generate",              -- val_generator.generate([])
  Stmt.libCall "DLWP.model" "evaluate",
  Stmt.direct Eff.printOut,                             -- print('Validation loss:', ...)
  Stmt.direct Eff.printOut                              -- print('Other scores:', ...)
]

/-- All statements of the repository's code, both notebooks in order. -/
def all_stmts : List Stmt := notebook1_stmts ++ notebook3_stmts

/-- Does this statement catch exceptions (a `try`/`except`)? -/
def Stmt.is_handler : Stmt → Bool
  | .tryExcept _ _ => true
  | _ => false

/-- Does this statement declare a class (a data structure or error type)? -/
def Stmt.is_class_def : Stmt → Bool
  | .classDef _ => true
  | _ => false

/-- Does this statement use a concurrency primitive directly? -/
def Stmt.is_concurrency_primitive : Stmt → Bool
  | .spawnThread => true
  | .spawnProcess => true
  | _ => false

/-- The effect a statement performs directly, if any. -/
def Stmt.direct_eff : Stmt → Option Eff
  | .direct e => some e
  | _ => none

/-- The name of the function a statement defines, if any. -/
def Stmt.def_name : Stmt → Option String
  | .defFun n => some n
  | _ => none

/-- All effects performed directly by a list of statements (effects inside
external library calls are not included — they belong to the library). -/
def direct_effects (stmts : List Stmt) : List Eff :=
  stmts.filterMap Stmt.direct_eff

/-- Does this effect modify the filesystem?  Creating a directory and
writing a NetCDF file do; changing the process working directory and
printing to the interactive notebook display do not. -/
def Eff.is_fs_write : Eff → Bool
  | .makedirs _ => true
  | .writeNetcdf _ => true
  | _ => false

/-- Run one statement.  Only a library call can raise, with outcome given
by `oracle package fn`; a `tryExcept` statement would catch an error
raised by its body and run its handler instead; every other statement
form the notebooks use is pure orchestration and succeeds. -/
def Stmt.runOne (oracle : String → String → Except String Unit) : Stmt → Except String Unit
  | .libCall p f => oracle p f
  | .tryExcept body handler =>
    match body.runOne oracle with
    | .error _ => handler.runOne oracle
    | .ok _ => .ok ()
  | _ => .ok ()

/-- Run a list of statements in order, as the interactive environment runs
the notebook cells: the first error aborts the run and becomes the
result. -/
def run_stmts (oracle : String → String → Except String Unit) : List Stmt → Except String Unit
  | [] => .ok ()
  | s :: rest =>
    match s.runOne oracle with
    | .error e => .error e
    | .ok _ => run_stmts oracle rest

theorem run_stmts_append (oracle : String → String → Except String Unit)
    (as bs : List Stmt) :
    run_stmts oracle (as ++ bs) =
      match run_stmts oracle as with
      | .error e => .error e
      | .ok _ => run_stmts oracle bs := by
  induction as with
  | nil => rfl
  | cons s rest ih =>
    simp only [List.cons_append, run_stmts]
    cases Stmt.runOne oracle s with
    | error e => rfl
    | ok u => exact ih

/-- C5: no notebook statement is an exception handler and none declares an
error type, so whenever a library call raises an exception `e` (all
statements before it having succeeded), the whole notebook run surfaces
exactly `e`, unchanged. -/
theorem claim_C5_error_propagation (oracle : String → String → Except String Unit)
    (pre post : List Stmt) (p f e : String)
    (hsplit : all_stmts = pre ++ Stmt.libCall p f :: post)
    (hpre : run_stmts oracle pre = .ok ())
    (hcall : oracle p f = .error e) :
    (all_stmts.filter Stmt.is_handler = [] ∧
     all_stmts.filter Stmt.is_class_def = []) ∧
    run_stmts oracle all_stmts = .error e := by
  refine ⟨⟨rfl, rfl⟩, ?_⟩
  rw [hsplit, run_stmts_append, hpre]
  simp [run_stmts, Stmt.runOne, hcall]

/-- An outcome assignment making the ERA5 retrieval call raise and every
other library call succeed. -/
def retrieve_fails : String → String → Except String Unit := fun package fn =>
  if package == "DLWP.data" && fn == "retrieve" then .error "ConnectionError" else .ok ()

/-- C5 witness: when `era.retrieve` raises a connection error, the
downloading notebook surfaces exactly that error. -/
theorem claim_C5_witness :
    (all_stmts.filter Stmt.is_handler = [] ∧
     all_stmts.filter Stmt.is_class_def = []) ∧
    run_stmts retrieve_fails all_stmts = .error "ConnectionError" :=
  claim_C5_error_propagation retrieve_fails (all_stmts.take 12) (all_stmts.drop 13)
    "DLWP.data" "retrieve" "ConnectionError" rfl rfl rfl

/-- C6: the only filesystem effects performed directly by repository code
are creating the data directory with `os.makedirs` and writing the
coordinate-stripped NetCDF copy at `processed_file + '.nocoord'`; every
other direct effect of the notebooks is a print to the interactive
display or the working-directory change, neither of which writes through
any other output channel. -/
theorem claim_C6_filesystem_effects :
    (direct_effects all_stmts).filter Eff.is_fs_write
      = [Eff.makedirs data_directory, Eff.writeNetcdf (processed_file ++ ".nocoord")] ∧
    (direct_effects all_stmts).all
      (fun e => Eff.is_fs_write e || (e == Eff.printOut) || (e == Eff.chdir "os.pardir"))
      = true :=
  ⟨rfl, rfl⟩

/-- C7: no class or record type is declared anywhere in the repository's
code cells — the only definitions the notebooks make are the two functions
`unet2` and `complete_model`, so every data structure they manipulate is
externally defined. -/
theorem claim_C7_no_data_structures :
    all_stmts.filter Stmt.is_class_def = [] ∧
    all_stmts.filterMap Stmt.def_name = ["unet2", "complete_model"] :=
  ⟨rfl, rfl⟩

/-- C8: no statement of either notebook spawns a process or thread or uses
any concurrency primitive directly; concurrency can only happen inside the
external library calls. -/
theorem claim_C8_no_concurrency :
    all_stmts.filter Stmt.is_concurrency_primitive = [] :=
  rfl
